import Mathlib

/-!
Shallow embedding of the yt-scrobbler webhook core (src/plex_parser.py,
src/plex_client.py, src/app.py), with theorems checking the specification's
claims about the watch decision, identifier extraction and the pipeline.

Conventions of the embedding:
* Python dict fields are `Option`-typed structure fields; `dict.get(k, d)`
  becomes `Option.getD`.
* Python strings are Lean `String`s; character-level pattern matching is
  carried out on `String.data` (`List Char`).
* The regex character class `[a-zA-Z0-9_-]` is `isIdChar`; Python's `\w`
  (which the source uses for the file extension) is modelled over the ASCII
  word characters `[a-zA-Z0-9_]` as `isWordChar`.
* `re.search` with an anchored-at-end pattern is modelled by a left-to-right
  scan (`searchBracketExtL`, `searchBracketL`) that tries the pattern at each
  start position, matching Python's leftmost-match semantics.
* `json.loads` is an abstract parameter `String → Option Payload`
  (`none` models `json.JSONDecodeError`).
-/

namespace Scrobbler

/-- Characters of the regex class `[a-zA-Z0-9_-]` used for YouTube ids. -/
def isIdChar (c : Char) : Bool :=
  (('a' ≤ c) && (c ≤ 'z')) || (('A' ≤ c) && (c ≤ 'Z')) ||
  (('0' ≤ c) && (c ≤ '9')) || c == '_' || c == '-'

/-- ASCII word characters, modelling the `\w` class of the source's regexes. -/
def isWordChar (c : Char) : Bool :=
  (('a' ≤ c) && (c ≤ 'z')) || (('A' ≤ c) && (c ≤ 'Z')) ||
  (('0' ≤ c) && (c ≤ '9')) || c == '_'

/-- One attempt of the regex `\[([a-zA-Z0-9_-]\x7b11\x7d)\]\.\w+$` at the start
of `s`, where `s` runs to the end of the scanned string: an opening bracket,
exactly 11 id characters, a closing bracket, a dot, and a non-empty run of
word characters reaching the end. Returns the captured group. -/
def matchAtExt (s : List Char) : Option (List Char) :=
  match s with
  | [] => none
  | c :: rest =>
    if c = '[' then
      let t := rest.take 11
      if t.length = 11 ∧ t.all isIdChar = true then
        match rest.drop 11 with
        | c1 :: c2 :: ext =>
          if c1 = ']' ∧ c2 = '.' ∧ ext ≠ [] ∧ ext.all isWordChar = true then
            some t
          else none
        | _ => none
      else none
    else none

/-- `re.search` for the end-anchored bracket pattern: try every start
position from the left. -/
def searchBracketExtL : List Char → Option (List Char)
  | [] => none
  | c :: rest =>
    match matchAtExt (c :: rest) with
    | some t => some t
    | none => searchBracketExtL rest

/-- One attempt of the unanchored regex `\[([a-zA-Z0-9_-]\x7b11\x7d)\]` at the
start of `s`. -/
def matchAtBr (s : List Char) : Option (List Char) :=
  match s with
  | [] => none
  | c :: rest =>
    if c = '[' then
      let t := rest.take 11
      if t.length = 11 ∧ t.all isIdChar = true then
        match rest.drop 11 with
        | c1 :: _ => if c1 = ']' then some t else none
        | [] => none
      else none
    else none

/-- `re.search` for the unanchored bracket pattern. -/
def searchBracketL : List Char → Option (List Char)
  | [] => none
  | c :: rest =>
    match matchAtBr (c :: rest) with
    | some t => some t
    | none => searchBracketL rest

/-- A `Part` record of the webhook payload (`Metadata.Media[*].Part[*]`). -/
structure PartR where
  file : Option String
deriving DecidableEq

/-- A `Media` record of the webhook payload. A missing or null `Part` key
behaves like the empty list in the source (`media_item.get('Part', [])`
followed by a list-and-nonempty guard), so it is modelled as a list. -/
structure MediaR where
  Part : List PartR
deriving DecidableEq

/-- The `Metadata` record of the webhook payload, restricted to the keys the
source reads. A missing or null `Media` key behaves like the empty list. -/
structure MetadataR where
  title : Option String
  type : Option String
  librarySectionTitle : Option String
  ratingKey : Option String
  originalTitle : Option String
  duration : Option Int
  viewOffset : Option Int
  Media : List MediaR
deriving DecidableEq

/-- The `Account` record of the webhook payload. -/
structure AccountR where
  title : Option String
deriving DecidableEq

/-- A decoded webhook payload, restricted to the keys the source reads. -/
structure Payload where
  event : Option String
  Metadata : Option MetadataR
  Account : Option AccountR
deriving DecidableEq

/-- The empty dict used as default for `payload.get('Metadata', \x7b\x7d)`. -/
def emptyMetadata : MetadataR :=
  { title := none, type := none, librarySectionTitle := none,
    ratingKey := none, originalTitle := none,
    duration := none, viewOffset := none, Media := [] }

/-- The empty dict used as default for `payload.get('Account', \x7b\x7d)`. -/
def emptyAccount : AccountR := { title := none }

/-- `PlexWebhookParser.parse_payload` (src/plex_parser.py:17-34).
`form_payload` is the value of the form field `payload` (absent = `none`);
`json_loads` abstracts `json.loads`, with `none` for a decode error. Both the
missing/empty-field case and the decode-error case return `none`. -/
def parse_payload (json_loads : String → Option Payload)
    (form_payload : Option String) : Option Payload :=
  match form_payload with
  | none => none
  | some s => if s = "" then none else json_loads s

/-- `PlexWebhookParser.is_video_watched` (src/plex_parser.py:36-52): true
exactly for the event tag `media.scrobble`; `min_percentage` is accepted but
never read. -/
def is_video_watched (payload : Payload) (min_percentage : Int) : Bool :=
  let event := payload.event
  if event = some "media.scrobble" then true
  else false

/-- `PlexWebhookParser.get_rating_key` (src/plex_parser.py:54-66). -/
def get_rating_key (payload : Payload) : Option String :=
  let metadata := payload.Metadata.getD emptyMetadata
  metadata.ratingKey

/-- `PlexClient.extract_youtube_id_from_files` (src/plex_client.py:67-83):
first path whose suffix matches the end-anchored bracket pattern wins. -/
def extract_youtube_id_from_files : List String → Option String
  | [] => none
  | file_path :: rest =>
    match searchBracketExtL file_path.data with
    | some t => some (String.mk t)
    | none => extract_youtube_id_from_files rest

/-- Inner loop over `media_item.get('Part', [])` of
`PlexWebhookParser._extract_youtube_id_from_webhook`
(src/plex_parser.py:109-115): `part.get('file', '')`, skip empty paths, and
return the first end-anchored bracket match. -/
def partLoop : List PartR → Option String
  | [] => none
  | part :: rest =>
    let file_path := part.file.getD ""
    if file_path ≠ "" then
      match searchBracketExtL file_path.data with
      | some t => some (String.mk t)
      | none => partLoop rest
    else partLoop rest

/-- Outer loop over `metadata.get('Media', [])` of
`PlexWebhookParser._extract_youtube_id_from_webhook`
(src/plex_parser.py:105-115). -/
def mediaLoop : List MediaR → Option String
  | [] => none
  | media_item :: rest =>
    match partLoop media_item.Part with
    | some t => some t
    | none => mediaLoop rest

/-- `PlexWebhookParser._extract_youtube_id_from_webhook`
(src/plex_parser.py:93-129): file paths first, then `metadata.get('title','')`,
then `metadata.get('originalTitle','')`, each with the bracket pattern. -/
def extract_youtube_id_from_webhook (payload : Payload) : Option String :=
  let metadata := payload.Metadata.getD emptyMetadata
  match mediaLoop metadata.Media with
  | some t => some t
  | none =>
    match searchBracketL (metadata.title.getD "").data with
    | some t => some (String.mk t)
    | none =>
      match searchBracketL (metadata.originalTitle.getD "").data with
      | some t => some (String.mk t)
      | none => none

/-- `PlexWebhookParser.extract_youtube_id` (src/plex_parser.py:68-91),
instrumented: the second component records whether the webhook-payload
fallback `_extract_youtube_id_from_webhook` was run. `client` models
`self.plex_client` (`none` = not configured) as its lookup
`get_youtube_id_from_rating_key`. The Python truthiness tests
`if rating_key:` and `if youtube_id:` reject `None` and the empty string. -/
def extract_youtube_id_tr (client : Option (String → Option String))
    (payload : Payload) : Option String × Bool :=
  match client with
  | none => (extract_youtube_id_from_webhook payload, true)
  | some lookup =>
    match get_rating_key payload with
    | none => (extract_youtube_id_from_webhook payload, true)
    | some rating_key =>
      if rating_key = "" then (extract_youtube_id_from_webhook payload, true)
      else
        match lookup rating_key with
        | none => (extract_youtube_id_from_webhook payload, true)
        | some youtube_id =>
          if youtube_id = "" then (extract_youtube_id_from_webhook payload, true)
          else (some youtube_id, false)

/-- `PlexWebhookParser.extract_youtube_id`, result only. -/
def extract_youtube_id (client : Option (String → Option String))
    (payload : Payload) : Option String :=
  (extract_youtube_id_tr client payload).1

/-- `PlexWebhookParser.get_video_info` (src/plex_parser.py:159-173). -/
structure VideoInfo where
  title : String
  type : String
  library_section_title : String
  duration : Int
  view_offset : Int
  user : String
  event : String
deriving DecidableEq

/-- `PlexWebhookParser.get_video_info` (src/plex_parser.py:159-173): pure
projection of the payload with `Unknown`/`0` defaults. -/
def get_video_info (payload : Payload) : VideoInfo :=
  let metadata := payload.Metadata.getD emptyMetadata
  let account := payload.Account.getD emptyAccount
  { title := metadata.title.getD "Unknown"
    type := metadata.type.getD "Unknown"
    library_section_title := metadata.librarySectionTitle.getD "Unknown"
    duration := metadata.duration.getD 0
    view_offset := metadata.viewOffset.getD 0
    user := account.title.getD "Unknown"
    event := payload.event.getD "Unknown" }

/-! Characterization of the end-anchored bracket search. -/

/-- The spec's qualification rule for a file path: the path's suffix is an
opening bracket, exactly 11 characters from `[A-Za-z0-9_-]`, a closing
bracket, a dot, and a (non-empty, word-character) file extension at end of
string; `t` is the bracketed token. -/
def SuffixMatchL (s t : List Char) : Prop :=
  ∃ pre ext, s = pre ++ '[' :: (t ++ ']' :: '.' :: ext) ∧ t.length = 11 ∧
    t.all isIdChar = true ∧ ext ≠ [] ∧ ext.all isWordChar = true

/-- `SuffixMatchL` on strings. -/
def SuffixMatch (s t : String) : Prop :=
  SuffixMatchL s.data t.data

/-- The spec's contract for `extractFromFilePaths`, stated relationally:
the result is the bracketed token of the first path in order whose suffix
qualifies (later matching paths ignored), and absent when no path qualifies. -/
inductive FirstPathToken : List String → Option String → Prop where
  | nil : FirstPathToken [] none
  | found (p t : String) (rest : List String) :
      SuffixMatch p t → FirstPathToken (p :: rest) (some t)
  | skip (p : String) (rest : List String) (r : Option String) :
      (∀ t, ¬ SuffixMatch p t) → FirstPathToken rest r →
      FirstPathToken (p :: rest) r

/-! Flattened-file-list composition used to state the extraction order. -/

/-- The flattened `metadata.media[*].parts[*].file` sequence, in original
order, with a missing `file` key read as the empty string. -/
def flattenFiles (media : List MediaR) : List String :=
  (media.map (fun media_item => media_item.Part.map (fun part => part.file.getD ""))).flatten

/-- Modelled from the spec: `extractIdentifier` applies, in fixed order and
stopping at first success, (1) `extractFromFilePaths` over the flattened file
list, (2) the bracketed-token rule on `metadata.title`, (3) the same rule on
`metadata.originalTitle`; absent when all fail. -/
def extractIdentifierSpec (payload : Payload) : Option String :=
  let metadata := payload.Metadata.getD emptyMetadata
  match extract_youtube_id_from_files (flattenFiles metadata.Media) with
  | some t => some t
  | none =>
    match searchBracketL (metadata.title.getD "").data with
    | some t => some (String.mk t)
    | none =>
      match searchBracketL (metadata.originalTitle.getD "").data with
      | some t => some (String.mk t)
      | none => none

/-! The webhook pipeline of src/app.py. -/

/-- The observable outcomes of the `/plex-webhook` handler
(src/app.py:43-114): the JSON responses it can return. -/
inductive Outcome where
  | invalidPayload
  | skippedLibraryFilter
  | skippedNotWatched
  | skippedNoYoutubeId
  | success (youtube_id title : String)
  | markFailed
deriving DecidableEq

/-- Collaborator calls the handler can make after parsing, in order of
occurrence: the watch decision, identifier extraction, and the outbound
mark-as-watched call. -/
inductive Effect where
  | watchCheck
  | extractId
  | markWatched (youtube_id : String)
deriving DecidableEq

/-- The `plex_webhook` handler (src/app.py:43-114) after payload parsing,
instrumented with the list of calls it performs. `lib_filter` is
`PLEX_LIBRARY_FILTER`, `min_percentage` is `MIN_WATCH_PERCENTAGE`, `extract`
abstracts the identifier-extraction call of line 80 and `mark` the
`mark_as_watched` collaborator; `parsed` is the `parse_payload` result. The
combined first condition models the nested `if PLEX_LIBRARY_FILTER:` /
`if library not in PLEX_LIBRARY_FILTER:` tests, and `if not youtube_id:`
rejects both an absent and an empty extraction result. -/
def plex_webhook (lib_filter : List String) (min_percentage : Int)
    (extract : Payload → Option String) (mark : String → Bool)
    (parsed : Option Payload) : Outcome × List Effect :=
  match parsed with
  | none => (Outcome.invalidPayload, [])
  | some payload =>
    let video_info := get_video_info payload
    if lib_filter ≠ [] ∧ video_info.library_section_title ∉ lib_filter then
      (Outcome.skippedLibraryFilter, [])
    else if is_video_watched payload min_percentage = false then
      (Outcome.skippedNotWatched, [Effect.watchCheck])
    else
      match extract payload with
      | none => (Outcome.skippedNoYoutubeId, [Effect.watchCheck, Effect.extractId])
      | some youtube_id =>
        if youtube_id = "" then
          (Outcome.skippedNoYoutubeId, [Effect.watchCheck, Effect.extractId])
        else if mark youtube_id then
          (Outcome.success youtube_id video_info.title,
            [Effect.watchCheck, Effect.extractId, Effect.markWatched youtube_id])
        else
          (Outcome.markFailed,
            [Effect.watchCheck, Effect.extractId, Effect.markWatched youtube_id])

/-! Concrete inputs used by witnesses and counterexamples. -/

/-- Metadata of a fully-watched `media.stop` event. -/
def stopMeta : MetadataR :=
  { emptyMetadata with duration := some 100, viewOffset := some 100 }

/-- A `media.stop` payload at 100% progress. -/
def stopPayload : Payload :=
  { event := some "media.stop", Metadata := some stopMeta, Account := none }

/-- A `media.scrobble` payload with no progress metadata at all. -/
def scrobblePayload : Payload :=
  { event := some "media.scrobble", Metadata := none, Account := none }

/-- A `media.stop` payload whose metadata carries no duration. -/
def stopNoDurationPayload : Payload :=
  { event := some "media.stop", Metadata := some emptyMetadata, Account := none }

/-- A payload with an event tag the parser does not know. -/
def unknownTagPayload : Payload :=
  { event := some "media.pause", Metadata := none, Account := none }

/-- A payload with every key absent. -/
def emptyPayload : Payload :=
  { event := none, Metadata := none, Account := none }

/-- A `json.loads` stand-in that fails on every input, as on non-JSON text. -/
def failingLoads : String → Option Payload := fun _ => none

/-- A server lookup that answers every rating key with the same id. -/
def constLookup : String → Option String := fun _ => some "dQw4w9WgXcQ"

/-- Metadata with a present-but-empty rating key and a bracketed token in the
title. -/
def emptyRatingKeyMeta : MetadataR :=
  { emptyMetadata with ratingKey := some "", title := some "x [abcdefghijk] y" }

/-- Payload around `emptyRatingKeyMeta`. -/
def emptyRatingKeyPayload : Payload :=
  { event := some "media.scrobble", Metadata := some emptyRatingKeyMeta,
    Account := none }

/-- Payload with a normal rating key. -/
def ratingKeyPayload : Payload :=
  { event := some "media.scrobble",
    Metadata := some { emptyMetadata with ratingKey := some "12345" },
    Account := none }

/-- Payload whose library section is `YouTube`. -/
def filteredPayload : Payload :=
  { event := some "media.scrobble",
    Metadata := some { emptyMetadata with librarySectionTitle := some "YouTube" },
    Account := none }

/-! Lemmas. -/

lemma matchAtExt_sound {s t : List Char} (h : matchAtExt s = some t) :
    ∃ ext, s = '[' :: (t ++ ']' :: '.' :: ext) ∧ t.length = 11 ∧
      t.all isIdChar = true ∧ ext ≠ [] ∧ ext.all isWordChar = true := by
  match s with
  | [] => simp [matchAtExt] at h
  | c :: rest =>
    simp only [matchAtExt] at h
    split at h
    case isTrue hc =>
      split at h
      case isTrue hcond =>
        split at h
        case h_1 c1 c2 ext heq =>
          split at h
          case isTrue hcond2 =>
            obtain ⟨h1, h2, h3, h4⟩ := hcond2
            injection h with h5
            subst hc h1 h2
            refine ⟨ext, ?_, h5 ▸ hcond.1, h5 ▸ hcond.2, h3, h4⟩
            have hrec := List.take_append_drop 11 rest
            rw [heq, h5] at hrec
            rw [← hrec]
          case isFalse _ => exact absurd h (by simp)
        case h_2 _ => exact absurd h (by simp)
      case isFalse _ => exact absurd h (by simp)
    case isFalse _ => exact absurd h (by simp)

lemma matchAtExt_complete {t ext : List Char} (hlen : t.length = 11)
    (ht : t.all isIdChar = true) (hne : ext ≠ []) (hext : ext.all isWordChar = true) :
    matchAtExt ('[' :: (t ++ ']' :: '.' :: ext)) = some t := by
  have htake : (t ++ ']' :: '.' :: ext).take 11 = t := by
    rw [← hlen]; exact List.take_left _ _
  have hdrop : (t ++ ']' :: '.' :: ext).drop 11 = ']' :: '.' :: ext := by
    rw [← hlen]; exact List.drop_left _ _
  simp [matchAtExt, htake, hdrop, hlen, ht, hne, hext]

/-- No opening bracket occurs in the token/extension body of a qualifying
suffix: its characters are id characters, `]`, `.`, or word characters. -/
lemma bracket_not_in_body {t ext : List Char} (ht : t.all isIdChar = true)
    (hext : ext.all isWordChar = true) :
    '[' ∉ t ++ ']' :: '.' :: ext := by
  intro hmem
  rcases List.mem_append.1 hmem with h | h
  · exact absurd (List.all_eq_true.1 ht _ h) (by decide)
  · rcases List.mem_cons.1 h with h' | h'
    · exact absurd h' (by decide)
    · rcases List.mem_cons.1 h' with h'' | h''
      · exact absurd h'' (by decide)
      · exact absurd (List.all_eq_true.1 hext _ h'') (by decide)

/-- Two qualifying-suffix decompositions of the same string carry the same
token. -/
lemma bracket_decomp_unique (pre1 : List Char) :
    ∀ {pre2 t1 t2 ext1 ext2 : List Char},
      pre1 ++ '[' :: (t1 ++ ']' :: '.' :: ext1) = pre2 ++ '[' :: (t2 ++ ']' :: '.' :: ext2) →
      t1.length = 11 → t2.length = 11 →
      t1.all isIdChar = true → ext1.all isWordChar = true →
      t2.all isIdChar = true → ext2.all isWordChar = true →
      t1 = t2 := by
  induction pre1 with
  | nil =>
    intro pre2 t1 t2 ext1 ext2 heq hl1 hl2 ht1 he1 ht2 he2
    cases pre2 with
    | nil =>
      simp only [List.nil_append, List.cons.injEq] at heq
      exact (List.append_inj heq.2 (hl1.trans hl2.symm)).1
    | cons d pre2 =>
      exfalso
      simp only [List.nil_append, List.cons_append, List.cons.injEq] at heq
      obtain ⟨hd, heq⟩ := heq
      apply bracket_not_in_body ht1 he1
      rw [heq]
      exact List.mem_append_right _ (List.mem_cons_self _ _)
  | cons a pre1 ih =>
    intro pre2 t1 t2 ext1 ext2 heq hl1 hl2 ht1 he1 ht2 he2
    cases pre2 with
    | nil =>
      exfalso
      simp only [List.nil_append, List.cons_append, List.cons.injEq] at heq
      obtain ⟨hd, heq⟩ := heq
      apply bracket_not_in_body ht2 he2
      rw [← heq]
      exact List.mem_append_right _ (List.mem_cons_self _ _)
    | cons d pre2 =>
      simp only [List.cons_append, List.cons.injEq] at heq
      exact ih heq.2 hl1 hl2 ht1 he1 ht2 he2

/-- Uniqueness of the token of a qualifying suffix. -/
lemma suffixMatchL_unique {s t1 t2 : List Char}
    (h1 : SuffixMatchL s t1) (h2 : SuffixMatchL s t2) : t1 = t2 := by
  obtain ⟨p1, e1, hs1, hl1, ht1, -, he1⟩ := h1
  obtain ⟨p2, e2, hs2, hl2, ht2, -, he2⟩ := h2
  exact bracket_decomp_unique p1 (hs1.symm.trans hs2) hl1 hl2 ht1 he1 ht2 he2

lemma searchBracketExtL_sound : ∀ {s t : List Char},
    searchBracketExtL s = some t → SuffixMatchL s t := by
  intro s
  induction s with
  | nil => intro t h; simp [searchBracketExtL] at h
  | cons c rest ih =>
    intro t h
    rw [searchBracketExtL] at h
    cases hm : matchAtExt (c :: rest) with
    | some t0 =>
      rw [hm] at h
      injection h with h
      subst h
      obtain ⟨ext, hs, hl, ht, hne, hext⟩ := matchAtExt_sound hm
      exact ⟨[], ext, by simpa using hs, hl, ht, hne, hext⟩
    | none =>
      rw [hm] at h
      obtain ⟨pre, ext, hs, hl, ht, hne, hext⟩ := ih h
      exact ⟨c :: pre, ext, by simp [hs], hl, ht, hne, hext⟩

lemma searchBracketExtL_isSome {s t : List Char} (h : SuffixMatchL s t) :
    (searchBracketExtL s).isSome = true := by
  obtain ⟨pre, ext, hs, hl, ht, hne, hext⟩ := h
  subst hs
  induction pre with
  | nil =>
    rw [List.nil_append, searchBracketExtL, matchAtExt_complete hl ht hne hext]
    rfl
  | cons a pre ih =>
    rw [List.cons_append, searchBracketExtL]
    cases hm : matchAtExt (a :: (pre ++ '[' :: (t ++ ']' :: '.' :: ext))) with
    | some t0 => rfl
    | none => exact ih

/-- The end-anchored bracket search finds exactly the token of the (unique)
qualifying suffix. -/
lemma searchBracketExtL_eq_some {s t : List Char} (h : SuffixMatchL s t) :
    searchBracketExtL s = some t := by
  obtain ⟨t', ht'⟩ := Option.isSome_iff_exists.1 (searchBracketExtL_isSome h)
  have h' := searchBracketExtL_sound ht'
  rw [ht', suffixMatchL_unique h' h]

lemma searchBracketExtL_none {s : List Char} (h : searchBracketExtL s = none)
    (t : List Char) : ¬ SuffixMatchL s t := by
  intro hc
  rw [searchBracketExtL_eq_some hc] at h
  exact Option.noConfusion h

lemma extract_files_append (l1 l2 : List String) :
    extract_youtube_id_from_files (l1 ++ l2) =
      match extract_youtube_id_from_files l1 with
      | some t => some t
      | none => extract_youtube_id_from_files l2 := by
  induction l1 with
  | nil => rfl
  | cons f l1 ih =>
    rw [List.cons_append, extract_youtube_id_from_files, extract_youtube_id_from_files]
    cases searchBracketExtL f.data with
    | some t => rfl
    | none => exact ih

lemma partLoop_eq (parts : List PartR) :
    partLoop parts =
      extract_youtube_id_from_files (parts.map (fun part => part.file.getD "")) := by
  induction parts with
  | nil => rfl
  | cons part rest ih =>
    rw [List.map_cons, partLoop, extract_youtube_id_from_files]
    by_cases hf : part.file.getD "" = ""
    · rw [hf]
      simpa using ih
    · simp only [hf, if_pos, ne_eq, not_false_iff]
      cases searchBracketExtL (part.file.getD "").data with
      | some t => rfl
      | none => exact ih

lemma mediaLoop_eq (media : List MediaR) :
    mediaLoop media = extract_youtube_id_from_files (flattenFiles media) := by
  induction media with
  | nil => rfl
  | cons media_item rest ih =>
    rw [mediaLoop, flattenFiles, List.map_cons, List.flatten_cons, extract_files_append,
      partLoop_eq]
    cases extract_youtube_id_from_files
        (media_item.Part.map (fun part => part.file.getD "")) with
    | some t => rfl
    | none => rw [ih]; rfl

lemma extract_tr_lookup_hit {lookup : String → Option String} {payload : Payload}
    {rating_key youtube_id : String} (hrk : get_rating_key payload = some rating_key)
    (hne : rating_key ≠ "") (hl : lookup rating_key = some youtube_id)
    (hye : youtube_id ≠ "") :
    extract_youtube_id_tr (some lookup) payload = (some youtube_id, false) := by
  unfold extract_youtube_id_tr
  rw [hrk]
  simp [hne, hl, hye]

lemma extract_tr_fallback_result (client : Option (String → Option String))
    (payload : Payload) :
    (extract_youtube_id_tr client payload).2 = true →
    (extract_youtube_id_tr client payload).1 = extract_youtube_id_from_webhook payload := by
  unfold extract_youtube_id_tr
  cases client with
  | none => intro _; rfl
  | some lookup =>
    cases hrk : get_rating_key payload with
    | none => intro _; rfl
    | some rk =>
      by_cases hne : rk = ""
      · simp [hne]
      · simp only [if_neg hne]
        cases hl : lookup rk with
        | none => intro _; rfl
        | some y =>
          by_cases hy : y = ""
          · simp [hy]
          · simp [hy]

lemma extract_tr_ran_iff (client : Option (String → Option String))
    (payload : Payload) :
    (extract_youtube_id_tr client payload).2 = true ↔
      client = none ∨ get_rating_key payload = none ∨
      get_rating_key payload = some "" ∨
      ∃ lookup rating_key, client = some lookup ∧
        get_rating_key payload = some rating_key ∧ rating_key ≠ "" ∧
        (lookup rating_key = none ∨ lookup rating_key = some "") := by
  unfold extract_youtube_id_tr
  cases client with
  | none => simp
  | some lookup =>
    cases hrk : get_rating_key payload with
    | none => simp
    | some rk =>
      by_cases hne : rk = ""
      · subst hne
        simp
      · simp only [if_neg hne]
        cases hl : lookup rk with
        | none =>
          refine ⟨fun _ => ?_, fun _ => rfl⟩
          exact Or.inr (Or.inr (Or.inr ⟨lookup, rk, rfl, rfl, hne, Or.inl hl⟩))
        | some y =>
          by_cases hy : y = ""
          · subst hy
            simp only [if_pos]
            refine ⟨fun _ => ?_, fun _ => trivial⟩
            exact Or.inr (Or.inr (Or.inr ⟨lookup, rk, rfl, rfl, hne, Or.inr hl⟩))
          · simp only [if_neg hy]
            constructor
            · intro h
              exact absurd h (by simp)
            · rintro (h | h | h | ⟨l, r, hcl, hr, hrne, hlr⟩)
              · exact Option.noConfusion h
              · exact Option.noConfusion h
              · exact absurd (Option.some.inj h) hne
              · obtain rfl : l = lookup := (Option.some.inj hcl).symm
                obtain rfl : r = rk := (Option.some.inj hr).symm
                rcases hlr with h' | h'
                · rw [hl] at h'; exact Option.noConfusion h'
                · rw [hl] at h'; exact absurd (Option.some.inj h') hy

/-! Claims. -/

/-- C1 (counterexample): at a `media.stop` event with duration 100 and
viewOffset 100, so that the claimed threshold test
`(viewOffset / duration) * 100 >= minPercentage` holds at `minPercentage = 90`,
`is_video_watched` still returns `false`: the claimed iff fails. The source
has no `media.stop` branch at all. -/
theorem C1_counterexample :
    stopPayload.event = some "media.stop" ∧
    stopPayload.Metadata = some stopMeta ∧
    stopMeta.duration = some 100 ∧ stopMeta.viewOffset = some 100 ∧
    ¬ (is_video_watched stopPayload 90 = true ↔
        ((100 : Int) / 100) * 100 ≥ 90) := by
  refine ⟨rfl, rfl, rfl, rfl, ?_⟩
  decide

/-- C1 (amended): for every payload whose event tag is `media.stop`,
`is_video_watched` returns `false`, regardless of `viewOffset`, `duration`
and the threshold argument: the implementation relies on the event tag only. -/
theorem C1_media_stop_never_watched (payload : Payload) (min_percentage : Int)
    (h : payload.event = some "media.stop") :
    is_video_watched payload min_percentage = false := by
  simp only [is_video_watched]
  rw [h]
  decide

theorem C1_media_stop_never_watched_witness :
    is_video_watched stopPayload 90 = false :=
  C1_media_stop_never_watched stopPayload 90 rfl

/-- C2: for every payload whose event tag is `media.scrobble`,
`is_video_watched` returns `true`, regardless of the values or absence of
`viewOffset` and `duration` and regardless of the threshold argument. -/
theorem C2_scrobble_always_watched (payload : Payload) (min_percentage : Int)
    (h : payload.event = some "media.scrobble") :
    is_video_watched payload min_percentage = true := by
  simp only [is_video_watched]
  rw [h]
  decide

theorem C2_scrobble_always_watched_witness :
    is_video_watched scrobblePayload 42 = true :=
  C2_scrobble_always_watched scrobblePayload 42 rfl

/-- C3: `extract_youtube_id_from_files` returns the bracketed token of the
first path in order whose suffix qualifies (opening bracket, exactly 11
characters from `[A-Za-z0-9_-]`, closing bracket, dot, file extension at end
of string); later matching paths are ignored, non-11-character tokens do not
qualify, and with no qualifying path the result is absent. -/
theorem C3_first_path_token (paths : List String) :
    FirstPathToken paths (extract_youtube_id_from_files paths) := by
  induction paths with
  | nil => exact FirstPathToken.nil
  | cons f rest ih =>
    rw [extract_youtube_id_from_files]
    cases hm : searchBracketExtL f.data with
    | some t =>
      exact FirstPathToken.found f (String.mk t) rest (searchBracketExtL_sound hm)
    | none =>
      exact FirstPathToken.skip f rest _
        (fun t hc => searchBracketExtL_none hm t.data hc) ih

/-- C4: the webhook-payload extraction equals the spec's three-step
composition — the anchored file-path rule over the flattened
`metadata.media[*].parts[*].file` sequence in original order, then the
bracketed rule on `metadata.title`, then on `metadata.originalTitle` —
stopping at the first success and absent when all three fail; in particular
a file-path token wins over a differing title token. -/
theorem C4_extraction_order (payload : Payload) :
    extract_youtube_id_from_webhook payload = extractIdentifierSpec payload := by
  simp only [extract_youtube_id_from_webhook, extractIdentifierSpec, mediaLoop_eq]

/-- C5 (counterexample): with the lookup collaborator configured and a
present (but empty-string) `ratingKey`, whose lookup would yield an
identifier, the code still runs the webhook-payload extraction and returns
its (different) token: the claimed "lookup wins whenever ratingKey is
present and the lookup succeeds" fails at the empty rating key. -/
theorem C5_counterexample :
    get_rating_key emptyRatingKeyPayload = some "" ∧
    constLookup "" = some "dQw4w9WgXcQ" ∧
    extract_youtube_id_tr (some constLookup) emptyRatingKeyPayload =
      (some "abcdefghijk", true) := by
  refine ⟨rfl, rfl, ?_⟩
  decide

/-- C5 (amended): the lookup result wins outright when the collaborator is
configured, the rating key is present and non-empty, and the lookup yields a
non-empty identifier (no webhook extraction); the webhook-payload extraction
is run — and its result returned unmerged — exactly when the collaborator is
not configured, the rating key is absent or empty, or the lookup returns
absent or empty. -/
theorem C5_lookup_precedence (client : Option (String → Option String))
    (payload : Payload) :
    (∀ lookup rating_key youtube_id, client = some lookup →
      get_rating_key payload = some rating_key → rating_key ≠ "" →
      lookup rating_key = some youtube_id → youtube_id ≠ "" →
      extract_youtube_id_tr client payload = (some youtube_id, false)) ∧
    ((extract_youtube_id_tr client payload).2 = true →
      (extract_youtube_id_tr client payload).1 =
        extract_youtube_id_from_webhook payload) ∧
    ((extract_youtube_id_tr client payload).2 = true ↔
      client = none ∨ get_rating_key payload = none ∨
      get_rating_key payload = some "" ∨
      ∃ lookup rating_key, client = some lookup ∧
        get_rating_key payload = some rating_key ∧ rating_key ≠ "" ∧
        (lookup rating_key = none ∨ lookup rating_key = some "")) := by
  refine ⟨?_, extract_tr_fallback_result client payload, extract_tr_ran_iff client payload⟩
  intro lookup rating_key youtube_id hc hrk hne hl hy
  subst hc
  exact extract_tr_lookup_hit hrk hne hl hy

theorem C5_lookup_precedence_witness :
    extract_youtube_id_tr (some constLookup) ratingKeyPayload =
      (some "dQw4w9WgXcQ", false) :=
  (C5_lookup_precedence (some constLookup) ratingKeyPayload).1 constLookup
    "12345" "dQw4w9WgXcQ" rfl rfl (by decide) rfl (by decide)

/-- C6: `is_video_watched` is total — it returns a boolean for every payload
and threshold — and in particular returns `false` for every `media.stop`
event (hence for duration absent, zero or negative: no division is ever
performed) and for every event tag other than `media.scrobble`. -/
theorem C6_watch_total (payload : Payload) (min_percentage : Int) :
    (is_video_watched payload min_percentage = true ∨
      is_video_watched payload min_percentage = false) ∧
    (payload.event = some "media.stop" →
      is_video_watched payload min_percentage = false) ∧
    (payload.event ≠ some "media.scrobble" →
      is_video_watched payload min_percentage = false) := by
  refine ⟨Bool.eq_false_or_eq_true _, ?_, ?_⟩
  · intro h
    simp only [is_video_watched]
    rw [h]
    decide
  · intro h
    simp only [is_video_watched]
    rw [if_neg h]

theorem C6_watch_total_witness :
    is_video_watched stopNoDurationPayload 90 = false ∧
    is_video_watched unknownTagPayload 90 = false :=
  ⟨(C6_watch_total stopNoDurationPayload 90).2.1 rfl,
   (C6_watch_total unknownTagPayload 90).2.2 (by decide)⟩

/-- C7: the webhook pipeline skips before doing work: with a non-empty
library filter not containing the event's library section it returns
`skipped: library_filter` having performed no calls at all (the watch
decision is not evaluated); when not filtered and the watch decision is
false it returns `skipped: not_watched` having performed only the watch
check; and on both skip outcomes the performed-call trace contains neither
the identifier extraction nor any mark-as-watched call. -/
theorem C7_skip_before_extraction (lib_filter : List String)
    (min_percentage : Int) (extract : Payload → Option String)
    (mark : String → Bool) (payload : Payload) :
    (lib_filter ≠ [] →
      (get_video_info payload).library_section_title ∉ lib_filter →
      plex_webhook lib_filter min_percentage extract mark (some payload) =
        (Outcome.skippedLibraryFilter, [])) ∧
    ((lib_filter = [] ∨
        (get_video_info payload).library_section_title ∈ lib_filter) →
      is_video_watched payload min_percentage = false →
      plex_webhook lib_filter min_percentage extract mark (some payload) =
        (Outcome.skippedNotWatched, [Effect.watchCheck])) ∧
    (∀ out trace,
      plex_webhook lib_filter min_percentage extract mark (some payload) =
        (out, trace) →
      out = Outcome.skippedLibraryFilter ∨ out = Outcome.skippedNotWatched →
      Effect.extractId ∉ trace ∧ ∀ y, Effect.markWatched y ∉ trace) := by
  refine ⟨?_, ?_, ?_⟩
  · intro h1 h2
    simp only [plex_webhook]
    rw [if_pos ⟨h1, h2⟩]
  · intro hfilt hw
    have hcond : ¬ (lib_filter ≠ [] ∧
        (get_video_info payload).library_section_title ∉ lib_filter) := by
      rcases hfilt with h | h
      · intro hc; exact hc.1 h
      · intro hc; exact hc.2 h
    simp only [plex_webhook]
    rw [if_neg hcond, if_pos hw]
  · intro out trace heq hout
    simp only [plex_webhook] at heq
    split at heq
    · cases heq
      exact ⟨by simp, fun y => by simp⟩
    · split at heq
      · cases heq
        refine ⟨by decide, fun y => by simp⟩
      · split at heq
        · cases heq
          rcases hout with h | h <;> exact Outcome.noConfusion h
        · split at heq
          · cases heq
            rcases hout with h | h <;> exact Outcome.noConfusion h
          · split at heq
            · cases heq
              rcases hout with h | h <;> exact Outcome.noConfusion h
            · cases heq
              rcases hout with h | h <;> exact Outcome.noConfusion h

theorem C7_skip_before_extraction_witness :
    plex_webhook ["Music"] 90 (fun _ => none) (fun _ => true)
        (some filteredPayload) =
      (Outcome.skippedLibraryFilter, []) :=
  (C7_skip_before_extraction ["Music"] 90 (fun _ => none) (fun _ => true)
    filteredPayload).1 (by decide) (by decide)

/-- C8 (counterexample): an absent payload field and an undecodable payload
field produce the very same unclassified failure result `none` — the two
failure classes claimed to be distinguishable to the caller are not. -/
theorem C8_counterexample :
    parse_payload failingLoads none = none ∧
    parse_payload failingLoads (some "not json") = none ∧
    parse_payload failingLoads none =
      parse_payload failingLoads (some "not json") := by
  refine ⟨rfl, ?_, ?_⟩ <;> decide

/-- C8 (amended): `parse_payload` fails — with the single undifferentiated
result `none`, logged differently but indistinguishable to the caller —
exactly when the payload field is absent, empty, or fails JSON decoding; on
a non-empty decodable field it returns the decoded record. -/
theorem C8_parse_failure_collapsed (json_loads : String → Option Payload)
    (form_payload : Option String) :
    (parse_payload json_loads form_payload = none ↔
      form_payload = none ∨ form_payload = some "" ∨
      ∃ s, form_payload = some s ∧ s ≠ "" ∧ json_loads s = none) ∧
    (∀ s p, form_payload = some s → s ≠ "" → json_loads s = some p →
      parse_payload json_loads form_payload = some p) := by
  constructor
  · cases form_payload with
    | none => simp [parse_payload]
    | some s =>
      by_cases hs : s = ""
      · subst hs
        simp [parse_payload]
      · simp [parse_payload, hs]
  · intro s p hf hs hl
    subst hf
    simp [parse_payload, hs, hl]

theorem C8_parse_failure_collapsed_witness :
    parse_payload (fun _ => some emptyPayload) (some "x") = some emptyPayload :=
  (C8_parse_failure_collapsed (fun _ => some emptyPayload) (some "x")).2
    "x" emptyPayload rfl (by decide) rfl

/-- C9: `get_video_info` is a total pure projection: for every payload —
including one with `Metadata` or `Account` absent or empty — each missing
string field of the result is `Unknown` and each missing numeric field
(`duration`, `viewOffset`) is `0`. -/
theorem C9_defaults (payload : Payload) :
    (payload.Metadata = none →
      (get_video_info payload).title = "Unknown" ∧
      (get_video_info payload).type = "Unknown" ∧
      (get_video_info payload).library_section_title = "Unknown" ∧
      (get_video_info payload).duration = 0 ∧
      (get_video_info payload).view_offset = 0) ∧
    (payload.Account = none → (get_video_info payload).user = "Unknown") ∧
    (payload.event = none → (get_video_info payload).event = "Unknown") ∧
    (∀ m, payload.Metadata = some m →
      (m.title = none → (get_video_info payload).title = "Unknown") ∧
      (m.type = none → (get_video_info payload).type = "Unknown") ∧
      (m.librarySectionTitle = none →
        (get_video_info payload).library_section_title = "Unknown") ∧
      (m.duration = none → (get_video_info payload).duration = 0) ∧
      (m.viewOffset = none → (get_video_info payload).view_offset = 0)) ∧
    (∀ a, payload.Account = some a → a.title = none →
      (get_video_info payload).user = "Unknown") := by
  refine ⟨?_, ?_, ?_, ?_, ?_⟩
  · intro h
    simp [get_video_info, h, emptyMetadata]
  · intro h
    simp [get_video_info, h, emptyAccount]
  · intro h
    simp [get_video_info, h]
  · intro m hm
    refine ⟨?_, ?_, ?_, ?_, ?_⟩ <;> intro h <;> simp [get_video_info, hm, h]
  · intro a ha h
    simp [get_video_info, ha, h]

theorem C9_defaults_witness :
    (get_video_info emptyPayload).title = "Unknown" ∧
    (get_video_info emptyPayload).user = "Unknown" ∧
    (get_video_info emptyPayload).event = "Unknown" :=
  ⟨((C9_defaults emptyPayload).1 rfl).1,
   (C9_defaults emptyPayload).2.1 rfl,
   (C9_defaults emptyPayload).2.2.1 rfl⟩

/-- C10: the watch decision is independent of the configured minimum watch
percentage: `is_video_watched` gives the same answer under any two
thresholds, for every payload. -/
theorem C10_threshold_independent (payload : Payload) (a b : Int) :
    is_video_watched payload a = is_video_watched payload b := rfl

end Scrobbler
